import Mathlib

/-!
Shallow embedding of the `channels` python package (wyfo/pychannels) and
verification of its specification claims.

Source files embedded here:
  * `channels/wait_group.py`  — `WaitGroup` (FIFO of `asyncio` futures)
  * `channels/channel.py`     — channel variants and the close lifecycle
  * `channels/operations.py`  — `ChannelOperation`, `CHANNEL_READY`
  * `channels/select.py`      — `select_nowait`
  * `channels/errors.py`      — the error taxonomy

Python exceptions are modelled with `Except` / explicit result constructors;
the single-threaded cooperative scheduler means each operation between
suspension points is a pure state transformer, which is how it is embedded.
-/

/-- Embeds `channels.operations.ChannelOperation` (enum with `SEND`, `RECV`). -/
inductive ChannelOperation
  | SEND
  | RECV
deriving DecidableEq

/-- Embeds the python exceptions that the package raises or handles:
`ChannelClosed` and `ChannelNotReady(op)` from `channels/errors.py`, plus the
builtin `StopIteration` and `StopAsyncIteration` that matter for the
`__anext__` iteration protocol of `ClosableChannel`. -/
inductive PyExc
  | channelClosed
  | channelNotReady (op : ChannelOperation)
  | stopIteration
  | stopAsyncIteration
deriving DecidableEq

/-- Completion state of an `asyncio.Future` used as a waiter
(`channels/wait_group.py`, `Waiter = Future`).  A future is `done()` exactly
when it is not pending: a result was set (`woken`), an exception was set
(`aborted e`), or it was cancelled from outside (`cancelled`). -/
inductive WaiterState
  | pending
  | woken
  | aborted (e : PyExc)
  | cancelled
deriving DecidableEq

/-- A waiter: an `asyncio` future identified by `uid` with a completion
state.  The `uid` stands for object identity of the python future. -/
structure Waiter where
  uid : Nat
  state : WaiterState
deriving DecidableEq

/-- Embeds `Future.done()`: true in every state except pending. -/
def Waiter.done (w : Waiter) : Bool :=
  match w.state with
  | .pending => false
  | _ => true

/-- A `WaitGroup` queue (`self.waiters` with the default `QUEUE` storage,
i.e. a `deque` used FIFO): front of the queue at the head of the list. -/
abbrev WaitGroup := List Waiter

/-- Embeds `WaitGroup.wakeup_next`:

    while self.waiters:
        waiter = self.waiters.get()
        if not waiter.done():
            waiter.set_result(None)
            break

Returns the queue left after the loop together with the waiter that got its
result set (`none` when the loop drained every waiter without completing
one).  The skipped waiters (already done) are removed from the queue and
discarded, exactly as in the loop. -/
def wakeupNext : WaitGroup → WaitGroup × Option Waiter
  | [] => ([], none)
  | w :: ws =>
    if w.done then wakeupNext ws
    else (ws, some { w with state := .woken })

/-- Embeds the observable effect of `WaitGroup.abort(exc)`: the loop drains
the whole queue (it becomes empty) and sets `exc` on every not-done waiter.
This function returns the final states of the drained waiters; the queue
itself is left empty by the loop. -/
def abortDrained (e : PyExc) (g : WaitGroup) : List Waiter :=
  g.map fun w => if w.done then w else { w with state := .aborted e }

/-- Embeds the observable effect of `WaitGroup.wakeup_all`: the queue is
drained and every not-done waiter gets its result set.  Returns the final
states of the drained waiters; the queue is left empty. -/
def wakeupAllDrained (g : WaitGroup) : List Waiter :=
  g.map fun w => if w.done then w else { w with state := .woken }

theorem wakeupNext_all_done (g : WaitGroup) (h : ∀ x ∈ g, x.done = true) :
    wakeupNext g = ([], none) := by
  induction g with
  | nil => rfl
  | cons w ws ih =>
    have hw : w.done = true := h w (List.mem_cons_self w ws)
    simp only [wakeupNext, hw, if_true]
    exact ih fun x hx => h x (List.mem_cons_of_mem w hx)

theorem wakeupNext_none_iff (g : WaitGroup) :
    (wakeupNext g).2 = none ↔ ∀ x ∈ g, x.done = true := by
  induction g with
  | nil => simp [wakeupNext]
  | cons w ws ih =>
    by_cases hw : w.done = true
    · simp only [wakeupNext, hw, if_true]
      constructor
      · intro h x hx
        rcases List.mem_cons.1 hx with hx | hx
        · exact hx ▸ hw
        · exact (ih.1 h) x hx
      · intro h
        exact ih.2 fun x hx => h x (List.mem_cons_of_mem w hx)
    · constructor
      · intro h
        exfalso
        simp [wakeupNext, hw] at h
      · intro h
        exact absurd (h w (List.mem_cons_self w ws)) hw

/-- C5: `wakeup_next` removes waiters from the front, skipping the
already-completed ones, and completes the first not-completed waiter it
finds; the skipped completed waiters are removed from the queue.  It
completes nobody exactly when no live (not-completed) waiter is present in
the group — in particular a cancelled head waiter is skipped and the next
live waiter is the one woken. -/
theorem c5_wakeup_next_spec :
    (∀ (g1 g2 : WaitGroup) (w : Waiter),
        (∀ x ∈ g1, x.done = true) → w.done = false →
        wakeupNext (g1 ++ w :: g2) = (g2, some { w with state := .woken }))
  ∧ (∀ g : WaitGroup, (wakeupNext g).2 = none ↔ ∀ x ∈ g, x.done = true) := by
  constructor
  · intro g1 g2 w h1 hw
    induction g1 with
    | nil => simp [wakeupNext, hw]
    | cons x g1 ih =>
      have hx : x.done = true := h1 x (List.mem_cons_self x g1)
      simp only [List.cons_append, wakeupNext, hx, if_true]
      exact ih fun y hy => h1 y (List.mem_cons_of_mem x hy)
  · exact wakeupNext_none_iff

/-- Witness for C5 at a concrete wait-group: a cancelled head waiter is
skipped and removed, the next pending waiter is completed, later waiters
stay queued. -/
theorem c5_wakeup_next_spec_witness :
    wakeupNext [⟨0, .cancelled⟩, ⟨1, .pending⟩, ⟨2, .pending⟩]
      = ([⟨2, .pending⟩], some ⟨1, .woken⟩) :=
  c5_wakeup_next_spec.1 [⟨0, .cancelled⟩] [⟨2, .pending⟩] ⟨1, .pending⟩
    (by decide) (by decide)

/-- Result of a channel operation: `ok` and `exc` carry the channel state
after the operation (python mutates in place, also when an exception
escapes mid-way); `parks` carries the state after the task enqueued a fresh
pending waiter and suspended (`WaitGroup.wait`); `crash` marks behavior that
is undefined at this layer (a failing `assert`, or `get()` on an empty
storage). -/
inductive OpResult (σ : Type) (α : Type)
  | ok (a : α) (s : σ)
  | exc (e : PyExc) (s : σ)
  | parks (s : σ)
  | crash
deriving DecidableEq

/-- States carried by an operation result (used to state invariant
preservation across every outcome of an operation). -/
def OpResult.allStates {σ α : Type} : OpResult σ α → List σ
  | .ok _ s => [s]
  | .exc _ s => [s]
  | .parks s => [s]
  | .crash => []

/-- Result of `ClosableChannel.close`: `ok` carries the state after the
close together with the final states of the drained sender and receiver
waiters; `exc` carries the state when `_close` raised (possible only when
the channel was already closed). -/
inductive CloseResult (σ : Type)
  | ok (s : σ) (abortedSenders abortedReceivers : List Waiter)
  | exc (e : PyExc) (s : σ)
deriving DecidableEq

/-- States carried by a close result. -/
def CloseResult.allStates {σ : Type} : CloseResult σ → List σ
  | .ok s _ _ => [s]
  | .exc _ s => [s]

/-- Embeds the `_ready_to_send` wrapper injected by
`ClosableChannel.__init_subclass__` (channel.py lines 131-135):

    if self.closed:
        raise ChannelClosed()
    return ready_to_send(self)
-/
def wrapReadySend (closed raw : Bool) : Except PyExc Bool :=
  if closed then .error .channelClosed else .ok raw

/-- Embeds the `_ready_to_receive` wrapper injected by
`ClosableChannel.__init_subclass__` (channel.py lines 137-142):

    ready = ready_to_receive(self)
    if not ready and self.closed:
        raise ChannelClosed()
    return ready
-/
def wrapReadyReceive (closed raw : Bool) : Except PyExc Bool :=
  if !raw && closed then .error .channelClosed else .ok raw

/-- State of `_XcastChannel` (channel.py lines 215-241), the common slot
channel behind `UnicastChannel`, `BroadcastChannel` and `DefaultChannel`:
`message` is the slot (`NO_MSG` is `none`), plus the two wait-groups of
`BaseChannel` and the `_closed` flag installed by the closable wrapper. -/
structure XcastState (Msg : Type) where
  message : Option Msg
  senders : WaitGroup
  receivers : WaitGroup
  closed : Bool
deriving DecidableEq

/-- Raw `_XcastChannel._ready_to_send`:
`self._message is NO_MSG and not self._receivers.empty`. -/
def XcastState.ready_to_send_raw {Msg : Type} (s : XcastState Msg) : Bool :=
  s.message.isNone && !s.receivers.isEmpty

/-- Raw `_XcastChannel._ready_to_receive`: `self._message is not NO_MSG`. -/
def XcastState.ready_to_receive_raw {Msg : Type} (s : XcastState Msg) : Bool :=
  s.message.isSome

/-- The closable-wrapped `_ready_to_send` of the xcast channels. -/
def XcastState.ready_to_send {Msg : Type} (s : XcastState Msg) :
    Except PyExc Bool :=
  wrapReadySend s.closed s.ready_to_send_raw

/-- The closable-wrapped `_ready_to_receive` of the xcast channels. -/
def XcastState.ready_to_receive {Msg : Type} (s : XcastState Msg) :
    Except PyExc Bool :=
  wrapReadyReceive s.closed s.ready_to_receive_raw

/-- Raw `_XcastChannel._send` (the `assert self._message is NO_MSG` makes a
full slot undefined behavior, modelled as `none`); `_wakeup_receivers` is
`wakeup_next` for `UnicastChannel` and `wakeup_all` for `BroadcastChannel`,
selected by `wakeAll`.  `wakeup_all` leaves the receiver queue empty. -/
def XcastState.send_raw {Msg : Type} (wakeAll : Bool) (s : XcastState Msg)
    (m : Msg) : Option (XcastState Msg) :=
  if s.message.isSome then none
  else some { s with message := some m,
                     receivers := if wakeAll then []
                                  else (wakeupNext s.receivers).1 }

/-- Raw `_XcastChannel._receive`: reads the slot, clears it, wakes the next
sender and returns the message.  `none` when the slot is empty (the
`assert` fails: undefined at this layer). -/
def XcastState.receive_raw {Msg : Type} (s : XcastState Msg) :
    Option (Msg × XcastState Msg) :=
  match s.message with
  | none => none
  | some m => some (m, { s with message := none,
                                senders := (wakeupNext s.senders).1 })

/-- Embeds the `_receive` wrapper injected by
`BaseClosableChannel.__init_subclass__` (channel.py lines 188-201):

    msg = receive(self)
    if self.closed and not self._ready_to_receive():
        self._receivers.abort(ChannelClosed())
    return msg

Note `self._ready_to_receive()` resolves to the closable-wrapped probe,
which raises `ChannelClosed` when the channel is closed and not ready; the
raise propagates out of the `if` condition, so the branch aborting the
receivers is only reached when the probe returns `False`, which the wrapped
probe on a closed channel never does. -/
def XcastState.receive_drain {Msg : Type} (s : XcastState Msg) :
    OpResult (XcastState Msg) Msg :=
  match s.receive_raw with
  | none => .crash
  | some (m, s1) =>
    if s1.closed then
      match s1.ready_to_receive with
      | .error e => .exc e s1
      | .ok true => .ok m s1
      | .ok false => .ok m { s1 with receivers := [] }
    else .ok m s1

/-- Embeds `SendChannel.send_nowait` for `UnicastChannel` /
`BroadcastChannel` (probe, then `ChannelNotReady(SEND)` when not ready,
else commit). -/
def XcastState.send_nowait {Msg : Type} (wakeAll : Bool) (s : XcastState Msg)
    (m : Msg) : OpResult (XcastState Msg) Unit :=
  match s.ready_to_send with
  | .error e => .exc e s
  | .ok false => .exc (.channelNotReady .SEND) s
  | .ok true =>
    match s.send_raw wakeAll m with
    | none => .crash
    | some s1 => .ok () s1

/-- Embeds `ReceiveChannel.receive_nowait` for the xcast channels (probe,
then `ChannelNotReady(RECV)` when not ready, else the wrapped commit). -/
def XcastState.receive_nowait {Msg : Type} (s : XcastState Msg) :
    OpResult (XcastState Msg) Msg :=
  match s.ready_to_receive with
  | .error e => .exc e s
  | .ok false => .exc (.channelNotReady .RECV) s
  | .ok true => s.receive_drain

/-- One scheduler-visible step of the composite `SendChannel.send` loop:
probe; when not ready the task enqueues a fresh pending waiter of uid
`fresh` on the sender wait-group and suspends (`_wait_send`); when ready it
commits. -/
def XcastState.send_once {Msg : Type} (wakeAll : Bool) (fresh : Nat)
    (s : XcastState Msg) (m : Msg) : OpResult (XcastState Msg) Unit :=
  match s.ready_to_send with
  | .error e => .exc e s
  | .ok false => .parks { s with senders := s.senders ++ [⟨fresh, .pending⟩] }
  | .ok true =>
    match s.send_raw wakeAll m with
    | none => .crash
    | some s1 => .ok () s1

/-- One scheduler-visible step of the composite `ReceiveChannel.receive`
loop: probe; when not ready the task enqueues a fresh pending waiter on the
receiver wait-group and suspends (`_wait_receive`); when ready it runs the
wrapped commit. -/
def XcastState.receive_once {Msg : Type} (fresh : Nat) (s : XcastState Msg) :
    OpResult (XcastState Msg) Msg :=
  match s.ready_to_receive with
  | .error e => .exc e s
  | .ok false => .parks { s with receivers := s.receivers ++ [⟨fresh, .pending⟩] }
  | .ok true => s.receive_drain

/-- Embeds `ClosableChannel.close` together with
`BaseClosableChannel._close` (channel.py lines 149-158 and 203-213) for the
xcast channels:

    self._senders.abort(ChannelClosed())
    if not self._ready_to_receive():
        self._receivers.abort(ChannelClosed())
    ...
    self._closed = True

The probe used inside `_close` is the closable-wrapped one; on the first
close `self.closed` is still false there, so it cannot raise. -/
def XcastState.close {Msg : Type} (s : XcastState Msg) :
    CloseResult (XcastState Msg) :=
  let abortedS := abortDrained .channelClosed s.senders
  let s1 : XcastState Msg := { s with senders := [] }
  match s1.ready_to_receive with
  | .error e => .exc e s1
  | .ok true => .ok { s1 with closed := true } abortedS []
  | .ok false =>
    .ok { s1 with receivers := [], closed := true } abortedS
      (abortDrained .channelClosed s1.receivers)

/-- `DefaultChannel._ready_to_send` returns `True` unconditionally, but the
closable wrapper installed on the `DefaultChannel` subclass still raises
`ChannelClosed` first when the channel is closed. -/
def XcastState.default_ready_to_send {Msg : Type} (s : XcastState Msg) :
    Except PyExc Bool :=
  wrapReadySend s.closed true

/-- `DefaultChannel._send`: overwrites the slot (no assert) and wakes all
receivers. -/
def XcastState.default_send_raw {Msg : Type} (s : XcastState Msg) (m : Msg) :
    XcastState Msg :=
  { s with message := some m, receivers := [] }

/-- `send_nowait` as dispatched on a `DefaultChannel`. -/
def XcastState.default_send_nowait {Msg : Type} (s : XcastState Msg)
    (m : Msg) : OpResult (XcastState Msg) Unit :=
  match s.default_ready_to_send with
  | .error e => .exc e s
  | .ok false => .exc (.channelNotReady .SEND) s
  | .ok true => .ok () (s.default_send_raw m)

/-- `DefaultChannel.reset`: `self._message = NO_MSG`. -/
def XcastState.reset {Msg : Type} (s : XcastState Msg) : XcastState Msg :=
  { s with message := none }

/-- State of `BufferedChannel` (channel.py lines 272-307) with the default
`QUEUE` (FIFO deque) storage: `messages` holds the buffer front-first,
`maxsize` is the optional bound, plus the wait-groups and the closed flag.
`BufferedChannel` overrides all four raw capability methods, so the
inherited slot plays no role and is omitted. -/
structure BufferedState (Msg : Type) where
  messages : List Msg
  maxsize : Option Nat
  senders : WaitGroup
  receivers : WaitGroup
  closed : Bool
deriving DecidableEq

/-- `BufferedChannel.empty`: `not self._messages`. -/
def BufferedState.empty {Msg : Type} (s : BufferedState Msg) : Bool :=
  s.messages.isEmpty

/-- `BufferedChannel.full`:
`self.maxsize is not None and self.size >= self.maxsize`. -/
def BufferedState.full {Msg : Type} (s : BufferedState Msg) : Bool :=
  match s.maxsize with
  | none => false
  | some k => decide (s.messages.length ≥ k)

/-- Raw `BufferedChannel._ready_to_send`:

    if self.maxsize == 0:
        return self.empty and not self._receivers.empty
    else:
        return not self.full
-/
def BufferedState.ready_to_send_raw {Msg : Type} (s : BufferedState Msg) :
    Bool :=
  if s.maxsize = some 0 then s.empty && !s.receivers.isEmpty
  else !s.full

/-- Raw `BufferedChannel._ready_to_receive`: `not self.empty`. -/
def BufferedState.ready_to_receive_raw {Msg : Type} (s : BufferedState Msg) :
    Bool :=
  !s.empty

/-- The closable-wrapped `_ready_to_send` of `BufferedChannel`. -/
def BufferedState.ready_to_send {Msg : Type} (s : BufferedState Msg) :
    Except PyExc Bool :=
  wrapReadySend s.closed s.ready_to_send_raw

/-- The closable-wrapped `_ready_to_receive` of `BufferedChannel`. -/
def BufferedState.ready_to_receive {Msg : Type} (s : BufferedState Msg) :
    Except PyExc Bool :=
  wrapReadyReceive s.closed s.ready_to_receive_raw

/-- Raw `BufferedChannel._send`: `self._messages.put(msg)` (a FIFO append)
then `self._receivers.wakeup_next()`. -/
def BufferedState.send_raw {Msg : Type} (s : BufferedState Msg) (m : Msg) :
    BufferedState Msg :=
  { s with messages := s.messages ++ [m],
           receivers := (wakeupNext s.receivers).1 }

/-- Raw `BufferedChannel._receive`: `self._messages.get()` (a FIFO pop from
the front; undefined on an empty buffer) then
`self._senders.wakeup_next()`. -/
def BufferedState.receive_raw {Msg : Type} (s : BufferedState Msg) :
    Option (Msg × BufferedState Msg) :=
  match s.messages with
  | [] => none
  | m :: rest => some (m, { s with messages := rest,
                                   senders := (wakeupNext s.senders).1 })

/-- The `BaseClosableChannel` drain wrapper around
`BufferedChannel._receive` (same injected code as for the xcast channels;
see `XcastState.receive_drain`). -/
def BufferedState.receive_drain {Msg : Type} (s : BufferedState Msg) :
    OpResult (BufferedState Msg) Msg :=
  match s.receive_raw with
  | none => .crash
  | some (m, s1) =>
    if s1.closed then
      match s1.ready_to_receive with
      | .error e => .exc e s1
      | .ok true => .ok m s1
      | .ok false => .ok m { s1 with receivers := [] }
    else .ok m s1

/-- `send_nowait` on a `BufferedChannel`. -/
def BufferedState.send_nowait {Msg : Type} (s : BufferedState Msg) (m : Msg) :
    OpResult (BufferedState Msg) Unit :=
  match s.ready_to_send with
  | .error e => .exc e s
  | .ok false => .exc (.channelNotReady .SEND) s
  | .ok true => .ok () (s.send_raw m)

/-- `receive_nowait` on a `BufferedChannel`. -/
def BufferedState.receive_nowait {Msg : Type} (s : BufferedState Msg) :
    OpResult (BufferedState Msg) Msg :=
  match s.ready_to_receive with
  | .error e => .exc e s
  | .ok false => .exc (.channelNotReady .RECV) s
  | .ok true => s.receive_drain

/-- One scheduler-visible step of the composite `send` loop on a
`BufferedChannel`. -/
def BufferedState.send_once {Msg : Type} (fresh : Nat) (s : BufferedState Msg)
    (m : Msg) : OpResult (BufferedState Msg) Unit :=
  match s.ready_to_send with
  | .error e => .exc e s
  | .ok false => .parks { s with senders := s.senders ++ [⟨fresh, .pending⟩] }
  | .ok true => .ok () (s.send_raw m)

/-- One scheduler-visible step of the composite `receive` loop on a
`BufferedChannel`. -/
def BufferedState.receive_once {Msg : Type} (fresh : Nat)
    (s : BufferedState Msg) : OpResult (BufferedState Msg) Msg :=
  match s.ready_to_receive with
  | .error e => .exc e s
  | .ok false => .parks { s with receivers := s.receivers ++ [⟨fresh, .pending⟩] }
  | .ok true => s.receive_drain

/-- `ClosableChannel.close` + `BaseClosableChannel._close` on a
`BufferedChannel` (same injected code as for the xcast channels; see
`XcastState.close`). -/
def BufferedState.close {Msg : Type} (s : BufferedState Msg) :
    CloseResult (BufferedState Msg) :=
  let abortedS := abortDrained .channelClosed s.senders
  let s1 : BufferedState Msg := { s with senders := [] }
  match s1.ready_to_receive with
  | .error e => .exc e s1
  | .ok true => .ok { s1 with closed := true } abortedS []
  | .ok false =>
    .ok { s1 with receivers := [], closed := true } abortedS
      (abortDrained .channelClosed s1.receivers)

/-- Embeds `ClosableChannel.__anext__` (channel.py lines 160-167), one
scheduler-visible step:

    try:
        return await self.receive()
    except ChannelClosed:
        raise StopIteration()

Note the python source raises the builtin `StopIteration`, not
`StopAsyncIteration`. -/
def BufferedState.anext {Msg : Type} (fresh : Nat) (s : BufferedState Msg) :
    OpResult (BufferedState Msg) Msg :=
  match s.receive_once fresh with
  | .exc .channelClosed s1 => .exc .stopIteration s1
  | r => r

/-- Models the truth value of the expression `CHANNEL_READY[op](chan)` as
used by `select_nowait` (select.py line 31).  In operations.py lines 27-30
the dictionary values are `lambda chan: chan._ready_to_send` and
`lambda chan: chan._ready_to_receive` — the lambda body is an attribute
access without a call, so the expression evaluates to the bound method
object itself, never to the result of the probe, and the truthiness of a
bound method object in python is `True` whatever the channel state. -/
def CHANNEL_READY_truth {C : Type} (_op : ChannelOperation) (_chan : C) :
    Bool :=
  true

/-- Embeds `select_nowait` (select.py lines 23-34) called with
`keep_order=True`; with `keep_order=False` the identical walk runs on a
random permutation of the list, so the embedding takes the possibly
permuted list as its input:

    for chan_op in chans:
        chan, op = chan_op
        if CHANNEL_READY[op](chan):
            return chan_op
    return None, None

`none` stands for the `(None, None)` sentinel. -/
def select_nowait {C : Type} :
    List (C × ChannelOperation) → Option (C × ChannelOperation)
  | [] => none
  | chan_op :: rest =>
    if CHANNEL_READY_truth chan_op.2 chan_op.1 then some chan_op
    else select_nowait rest

/-- C1 (divergence witness): `select_nowait` over the single pair
`(c, RECV)` where `c` is an empty buffered channel — a channel whose
readiness probe is false — returns that pair instead of the `(None, None)`
sentinel, because the walk tests the truthiness of the bound method object
produced by `CHANNEL_READY[op](chan)` instead of the probe result. -/
theorem c1_select_nowait_ignores_readiness :
    select_nowait
        [((⟨[], none, [], [], false⟩ : BufferedState Nat),
          ChannelOperation.RECV)]
      = some (⟨[], none, [], [], false⟩, ChannelOperation.RECV)
  ∧ (⟨[], none, [], [], false⟩ : BufferedState Nat).ready_to_receive
      = .ok false :=
  ⟨rfl, rfl⟩

/-- C2 (divergence witness): `DefaultChannel` does not override
`_XcastChannel._receive`, so receiving the latched message `7` clears the
slot: the state after the receive has an empty slot, its readiness probe
returns `false`, and a second receive parks instead of returning `7`
again.  The receive path of `DefaultChannel` is exactly the inherited
xcast receive embedded by `XcastState.receive_once`. -/
theorem c2_default_receive_consumes_the_slot :
    (XcastState.receive_once 0 (⟨some 7, [], [], false⟩ : XcastState Nat)
       = .ok 7 ⟨none, [], [], false⟩)
  ∧ ((⟨none, [], [], false⟩ : XcastState Nat).ready_to_receive = .ok false)
  ∧ (XcastState.receive_once 1 (⟨none, [], [], false⟩ : XcastState Nat)
       = .parks ⟨none, [], [⟨1, .pending⟩], false⟩) :=
  ⟨rfl, rfl, rfl⟩

/-- C3 (divergence witness): on an unbounded buffered channel, after
sending `1` then `2` and closing, the first receive returns `1`, but the
second receive pops `2` and then raises `ChannelClosed` — the message `2`
is lost — because the drain check injected by
`BaseClosableChannel.__init_subclass__` calls the closable-wrapped
`_ready_to_receive`, which raises on a closed empty channel before the
popped message can be returned (and before the receiver wait-group abort
can run). -/
theorem c3_closed_drain_raises_before_buffer_is_drained :
    (BufferedState.send_nowait (⟨[], none, [], [], false⟩ : BufferedState Nat) 1
       = .ok () ⟨[1], none, [], [], false⟩)
  ∧ (BufferedState.send_nowait (⟨[1], none, [], [], false⟩ : BufferedState Nat) 2
       = .ok () ⟨[1, 2], none, [], [], false⟩)
  ∧ (BufferedState.close (⟨[1, 2], none, [], [], false⟩ : BufferedState Nat)
       = .ok ⟨[1, 2], none, [], [], true⟩ [] [])
  ∧ (BufferedState.receive_once 0 (⟨[1, 2], none, [], [], true⟩ : BufferedState Nat)
       = .ok 1 ⟨[2], none, [], [], true⟩)
  ∧ (BufferedState.receive_once 1 (⟨[2], none, [], [], true⟩ : BufferedState Nat)
       = .exc .channelClosed ⟨[], none, [], [], true⟩) :=
  ⟨rfl, rfl, rfl, rfl, rfl⟩

/-- C9 (divergence witness): `ClosableChannel.__anext__` forwards each
receive result (first conjunct), but when `receive` raises `ChannelClosed`
on a closed drained channel it raises the builtin `StopIteration` — not
`StopAsyncIteration`, the only exception that ends an async iteration
normally (second conjunct). -/
theorem c9_anext_raises_builtin_stop_iteration :
    (BufferedState.anext 0 (⟨[9], none, [], [], false⟩ : BufferedState Nat)
       = .ok 9 ⟨[], none, [], [], false⟩)
  ∧ (BufferedState.anext 0 (⟨[], none, [], [], true⟩ : BufferedState Nat)
       = .exc .stopIteration ⟨[], none, [], [], true⟩) :=
  ⟨rfl, rfl⟩

/-- C6: on a not-closed `BufferedChannel`, `_ready_to_send` is: for
`maxsize = 0`, buffer empty and receiver wait-group non-empty; for
`maxsize = None`, always true; for `maxsize = k > 0`, buffer size below
`k`. -/
theorem c6_buffered_ready_to_send {Msg : Type} (s : BufferedState Msg)
    (h : s.closed = false) :
    (s.maxsize = some 0 →
        s.ready_to_send = .ok (s.messages.isEmpty && !s.receivers.isEmpty))
  ∧ (s.maxsize = none → s.ready_to_send = .ok true)
  ∧ (∀ k : Nat, 0 < k → s.maxsize = some k →
        s.ready_to_send = .ok (decide (s.messages.length < k))) := by
  refine ⟨?_, ?_, ?_⟩
  · intro h0
    simp [BufferedState.ready_to_send, wrapReadySend, h,
      BufferedState.ready_to_send_raw, BufferedState.empty, h0]
  · intro h0
    simp [BufferedState.ready_to_send, wrapReadySend, h,
      BufferedState.ready_to_send_raw, BufferedState.full, h0]
  · intro k hk h0
    have hk0 : k ≠ 0 := Nat.pos_iff_ne_zero.1 hk
    simp only [BufferedState.ready_to_send, wrapReadySend, h,
      BufferedState.ready_to_send_raw, BufferedState.full, h0, hk0,
      if_false, Option.some.injEq, ge_iff_le, Bool.false_eq_true]
    rcases Nat.lt_or_ge s.messages.length k with hl | hl
    · simp [hl, show ¬k ≤ s.messages.length by omega]
    · simp [show ¬s.messages.length < k by omega,
        show k ≤ s.messages.length from hl]

/-- Witness for C6: a concrete rendezvous-mode buffered channel
(`maxsize = 0`) with an empty buffer and one parked receiver is ready to
send. -/
theorem c6_buffered_ready_to_send_witness :
    (⟨[], some 0, [], [⟨0, .pending⟩], false⟩ : BufferedState Nat).ready_to_send
      = .ok true :=
  (c6_buffered_ready_to_send ⟨[], some 0, [], [⟨0, .pending⟩], false⟩ rfl).1 rfl

/-- C8: on a not-closed channel that is not ready for the attempted
operation, `send_nowait` raises `ChannelNotReady(SEND)` and
`receive_nowait` raises `ChannelNotReady(RECV)`, and the channel state is
carried through unchanged.  Covered for `BufferedChannel` and for the
xcast channels (`UnicastChannel` with `wakeAll = false`,
`BroadcastChannel` with `wakeAll = true`; `DefaultChannel` shares the
xcast receive path and is never not-ready to send). -/
theorem c8_nowait_not_ready_raises_not_ready {Msg : Type} :
    (∀ (s : BufferedState Msg) (m : Msg), s.closed = false →
        s.ready_to_send_raw = false →
        s.send_nowait m = .exc (.channelNotReady .SEND) s)
  ∧ (∀ s : BufferedState Msg, s.closed = false →
        s.ready_to_receive_raw = false →
        s.receive_nowait = .exc (.channelNotReady .RECV) s)
  ∧ (∀ (wakeAll : Bool) (s : XcastState Msg) (m : Msg), s.closed = false →
        s.ready_to_send_raw = false →
        XcastState.send_nowait wakeAll s m = .exc (.channelNotReady .SEND) s)
  ∧ (∀ s : XcastState Msg, s.closed = false →
        s.ready_to_receive_raw = false →
        s.receive_nowait = .exc (.channelNotReady .RECV) s) := by
  refine ⟨?_, ?_, ?_, ?_⟩
  · intro s m h1 h2
    simp [BufferedState.send_nowait, BufferedState.ready_to_send,
      wrapReadySend, h1, h2]
  · intro s h1 h2
    simp [BufferedState.receive_nowait, BufferedState.ready_to_receive,
      wrapReadyReceive, h1, h2]
  · intro wakeAll s m h1 h2
    simp [XcastState.send_nowait, XcastState.ready_to_send,
      wrapReadySend, h1, h2]
  · intro s h1 h2
    simp [XcastState.receive_nowait, XcastState.ready_to_receive,
      wrapReadyReceive, h1, h2]

/-- Witness for C8: on an open rendezvous-mode buffered channel with no
parked receiver, `send_nowait 5` raises `ChannelNotReady(SEND)` and leaves
the state unchanged; on an open empty unicast channel, `receive_nowait`
raises `ChannelNotReady(RECV)` and leaves the state unchanged. -/
theorem c8_nowait_not_ready_raises_not_ready_witness :
    (BufferedState.send_nowait
        (⟨[], some 0, [], [], false⟩ : BufferedState Nat) 5
      = .exc (.channelNotReady .SEND) ⟨[], some 0, [], [], false⟩)
  ∧ (XcastState.receive_nowait (⟨none, [], [], false⟩ : XcastState Nat)
      = .exc (.channelNotReady .RECV) ⟨none, [], [], false⟩) :=
  ⟨(c8_nowait_not_ready_raises_not_ready).1 ⟨[], some 0, [], [], false⟩ 5
      rfl rfl,
   (c8_nowait_not_ready_raises_not_ready).2.2.2 ⟨none, [], [], false⟩
      rfl rfl⟩

/-- C10: on a closed channel, `send_nowait` raises `ChannelClosed` (never
`ChannelNotReady`), and `receive_nowait` with no deliverable message also
raises `ChannelClosed`, because the closable-wrapped readiness probes
raise before the not-ready check of the nowait helpers runs.  Covered for
`BufferedChannel`, the xcast channels and the `DefaultChannel` send
path. -/
theorem c10_closed_nowait_raises_closed {Msg : Type} :
    (∀ (s : BufferedState Msg) (m : Msg), s.closed = true →
        s.send_nowait m = .exc .channelClosed s)
  ∧ (∀ s : BufferedState Msg, s.closed = true →
        s.ready_to_receive_raw = false →
        s.receive_nowait = .exc .channelClosed s)
  ∧ (∀ (wakeAll : Bool) (s : XcastState Msg) (m : Msg), s.closed = true →
        XcastState.send_nowait wakeAll s m = .exc .channelClosed s)
  ∧ (∀ s : XcastState Msg, s.closed = true →
        s.ready_to_receive_raw = false →
        s.receive_nowait = .exc .channelClosed s)
  ∧ (∀ (s : XcastState Msg) (m : Msg), s.closed = true →
        s.default_send_nowait m = .exc .channelClosed s) := by
  refine ⟨?_, ?_, ?_, ?_, ?_⟩
  · intro s m h1
    simp [BufferedState.send_nowait, BufferedState.ready_to_send,
      wrapReadySend, h1]
  · intro s h1 h2
    simp [BufferedState.receive_nowait, BufferedState.ready_to_receive,
      wrapReadyReceive, h1, h2]
  · intro wakeAll s m h1
    simp [XcastState.send_nowait, XcastState.ready_to_send,
      wrapReadySend, h1]
  · intro s h1 h2
    simp [XcastState.receive_nowait, XcastState.ready_to_receive,
      wrapReadyReceive, h1, h2]
  · intro s m h1
    simp [XcastState.default_send_nowait, XcastState.default_ready_to_send,
      wrapReadySend, h1]

/-- Witness for C10: on a closed buffered channel that still holds a free
buffer slot, `send_nowait 5` raises `ChannelClosed`, not
`ChannelNotReady`; on the same closed channel once empty, `receive_nowait`
raises `ChannelClosed` as well. -/
theorem c10_closed_nowait_raises_closed_witness :
    (BufferedState.send_nowait
        (⟨[], none, [], [], true⟩ : BufferedState Nat) 5
      = .exc .channelClosed ⟨[], none, [], [], true⟩)
  ∧ (BufferedState.receive_nowait (⟨[], none, [], [], true⟩ : BufferedState Nat)
      = .exc .channelClosed ⟨[], none, [], [], true⟩) :=
  ⟨(c10_closed_nowait_raises_closed).1 ⟨[], none, [], [], true⟩ 5 rfl,
   (c10_closed_nowait_raises_closed).2.1 ⟨[], none, [], [], true⟩ rfl rfl⟩

theorem buffered_receive_raw_closed {Msg : Type} (s : BufferedState Msg)
    (m : Msg) (s1 : BufferedState Msg) (h : s.receive_raw = some (m, s1)) :
    s1.closed = s.closed := by
  unfold BufferedState.receive_raw at h
  cases hm : s.messages with
  | nil => rw [hm] at h; cases h
  | cons a as =>
    rw [hm] at h
    simp only [Option.some.injEq, Prod.mk.injEq] at h
    rw [← h.2]

theorem buffered_receive_drain_closed {Msg : Type} (s : BufferedState Msg) :
    ∀ t ∈ s.receive_drain.allStates, t.closed = s.closed := by
  intro t ht
  unfold BufferedState.receive_drain at ht
  cases hraw : s.receive_raw with
  | none => rw [hraw] at ht; simp [OpResult.allStates] at ht
  | some p =>
    obtain ⟨m, s1⟩ := p
    have hcl : s1.closed = s.closed := buffered_receive_raw_closed s m s1 hraw
    rw [hraw] at ht
    by_cases h1 : s1.closed = true
    · simp only [h1, if_true] at ht
      cases hp : s1.ready_to_receive with
      | error e =>
        rw [hp] at ht
        simp [OpResult.allStates] at ht
        subst ht
        exact hcl
      | ok b =>
        rw [hp] at ht
        cases b
        · simp [OpResult.allStates] at ht
          subst ht
          exact (hcl.symm.trans h1).symm
        · simp [OpResult.allStates] at ht
          subst ht
          exact hcl
    · simp only [Bool.not_eq_true] at h1
      simp only [h1, Bool.false_eq_true, if_false] at ht
      simp [OpResult.allStates] at ht
      subst ht
      exact hcl

theorem buffered_send_nowait_closed {Msg : Type} (s : BufferedState Msg)
    (m : Msg) : ∀ t ∈ (s.send_nowait m).allStates, t.closed = s.closed := by
  intro t ht
  unfold BufferedState.send_nowait at ht
  cases hp : s.ready_to_send with
  | error e =>
    rw [hp] at ht; simp [OpResult.allStates] at ht; rw [ht]
  | ok b =>
    rw [hp] at ht
    cases b
    · simp [OpResult.allStates] at ht; rw [ht]
    · simp [OpResult.allStates] at ht; rw [ht]; rfl

theorem buffered_send_once_closed {Msg : Type} (fresh : Nat)
    (s : BufferedState Msg) (m : Msg) :
    ∀ t ∈ (s.send_once fresh m).allStates, t.closed = s.closed := by
  intro t ht
  unfold BufferedState.send_once at ht
  cases hp : s.ready_to_send with
  | error e =>
    rw [hp] at ht; simp [OpResult.allStates] at ht; rw [ht]
  | ok b =>
    rw [hp] at ht
    cases b
    · simp [OpResult.allStates] at ht; rw [ht]
    · simp [OpResult.allStates] at ht; rw [ht]; rfl

theorem buffered_receive_nowait_closed {Msg : Type} (s : BufferedState Msg) :
    ∀ t ∈ s.receive_nowait.allStates, t.closed = s.closed := by
  intro t ht
  unfold BufferedState.receive_nowait at ht
  cases hp : s.ready_to_receive with
  | error e =>
    rw [hp] at ht; simp [OpResult.allStates] at ht; rw [ht]
  | ok b =>
    rw [hp] at ht
    cases b
    · simp [OpResult.allStates] at ht; rw [ht]
    · exact buffered_receive_drain_closed s t ht

theorem buffered_receive_once_closed {Msg : Type} (fresh : Nat)
    (s : BufferedState Msg) :
    ∀ t ∈ (s.receive_once fresh).allStates, t.closed = s.closed := by
  intro t ht
  unfold BufferedState.receive_once at ht
  cases hp : s.ready_to_receive with
  | error e =>
    rw [hp] at ht; simp [OpResult.allStates] at ht; rw [ht]
  | ok b =>
    rw [hp] at ht
    cases b
    · simp [OpResult.allStates] at ht; rw [ht]
    · exact buffered_receive_drain_closed s t ht

theorem buffered_anext_closed {Msg : Type} (fresh : Nat)
    (s : BufferedState Msg) :
    ∀ t ∈ (BufferedState.anext fresh s).allStates, t.closed = s.closed := by
  intro t ht
  unfold BufferedState.anext at ht
  cases hro : BufferedState.receive_once fresh s with
  | ok a s1 =>
    rw [hro] at ht
    exact buffered_receive_once_closed fresh s t (by rw [hro]; exact ht)
  | parks s1 =>
    rw [hro] at ht
    exact buffered_receive_once_closed fresh s t (by rw [hro]; exact ht)
  | crash =>
    rw [hro] at ht
    simp [OpResult.allStates] at ht
  | exc e s1 =>
    have h1 : s1.closed = s.closed :=
      buffered_receive_once_closed fresh s s1
        (by rw [hro]; simp [OpResult.allStates])
    rw [hro] at ht
    cases e <;> simp [OpResult.allStates] at ht <;> rw [ht] <;> exact h1

theorem buffered_close_closed {Msg : Type} (s : BufferedState Msg) :
    ∀ t ∈ s.close.allStates, t.closed = s.closed ∨ t.closed = true := by
  intro t ht
  simp only [BufferedState.close] at ht
  cases hp : ({ s with senders := ([] : WaitGroup) } : BufferedState Msg).ready_to_receive with
  | error e =>
    rw [hp] at ht
    simp [CloseResult.allStates] at ht
    rw [ht]; exact Or.inl rfl
  | ok b =>
    rw [hp] at ht
    cases b <;> simp [CloseResult.allStates] at ht <;> rw [ht] <;>
      exact Or.inr rfl

theorem xcast_receive_raw_closed {Msg : Type} (s : XcastState Msg)
    (m : Msg) (s1 : XcastState Msg) (h : s.receive_raw = some (m, s1)) :
    s1.closed = s.closed := by
  unfold XcastState.receive_raw at h
  cases hm : s.message with
  | none => rw [hm] at h; cases h
  | some a =>
    rw [hm] at h
    simp only [Option.some.injEq, Prod.mk.injEq] at h
    rw [← h.2]

theorem xcast_receive_drain_closed {Msg : Type} (s : XcastState Msg) :
    ∀ t ∈ s.receive_drain.allStates, t.closed = s.closed := by
  intro t ht
  unfold XcastState.receive_drain at ht
  cases hraw : s.receive_raw with
  | none => rw [hraw] at ht; simp [OpResult.allStates] at ht
  | some p =>
    obtain ⟨m, s1⟩ := p
    have hcl : s1.closed = s.closed := xcast_receive_raw_closed s m s1 hraw
    rw [hraw] at ht
    by_cases h1 : s1.closed = true
    · simp only [h1, if_true] at ht
      cases hp : s1.ready_to_receive with
      | error e =>
        rw [hp] at ht
        simp [OpResult.allStates] at ht
        subst ht
        exact hcl
      | ok b =>
        rw [hp] at ht
        cases b
        · simp [OpResult.allStates] at ht
          subst ht
          exact (hcl.symm.trans h1).symm
        · simp [OpResult.allStates] at ht
          subst ht
          exact hcl
    · simp only [Bool.not_eq_true] at h1
      simp only [h1, Bool.false_eq_true, if_false] at ht
      simp [OpResult.allStates] at ht
      subst ht
      exact hcl

theorem xcast_send_nowait_closed {Msg : Type} (wakeAll : Bool)
    (s : XcastState Msg) (m : Msg) :
    ∀ t ∈ (XcastState.send_nowait wakeAll s m).allStates,
      t.closed = s.closed := by
  intro t ht
  unfold XcastState.send_nowait at ht
  cases hp : s.ready_to_send with
  | error e =>
    rw [hp] at ht; simp [OpResult.allStates] at ht; rw [ht]
  | ok b =>
    rw [hp] at ht
    cases b
    · simp [OpResult.allStates] at ht; rw [ht]
    · unfold XcastState.send_raw at ht
      by_cases hm : s.message.isSome = true
      · simp only [hm, if_true] at ht
        simp [OpResult.allStates] at ht
      · simp only [Bool.not_eq_true] at hm
        simp only [hm, Bool.false_eq_true, if_false] at ht
        simp [OpResult.allStates] at ht
        subst ht
        rfl

theorem xcast_send_once_closed {Msg : Type} (wakeAll : Bool) (fresh : Nat)
    (s : XcastState Msg) (m : Msg) :
    ∀ t ∈ (XcastState.send_once wakeAll fresh s m).allStates,
      t.closed = s.closed := by
  intro t ht
  unfold XcastState.send_once at ht
  cases hp : s.ready_to_send with
  | error e =>
    rw [hp] at ht; simp [OpResult.allStates] at ht; rw [ht]
  | ok b =>
    rw [hp] at ht
    cases b
    · simp [OpResult.allStates] at ht; rw [ht]
    · unfold XcastState.send_raw at ht
      by_cases hm : s.message.isSome = true
      · simp only [hm, if_true] at ht
        simp [OpResult.allStates] at ht
      · simp only [Bool.not_eq_true] at hm
        simp only [hm, Bool.false_eq_true, if_false] at ht
        simp [OpResult.allStates] at ht
        subst ht
        rfl

theorem xcast_receive_nowait_closed {Msg : Type} (s : XcastState Msg) :
    ∀ t ∈ s.receive_nowait.allStates, t.closed = s.closed := by
  intro t ht
  unfold XcastState.receive_nowait at ht
  cases hp : s.ready_to_receive with
  | error e =>
    rw [hp] at ht; simp [OpResult.allStates] at ht; rw [ht]
  | ok b =>
    rw [hp] at ht
    cases b
    · simp [OpResult.allStates] at ht; rw [ht]
    · exact xcast_receive_drain_closed s t ht

theorem xcast_receive_once_closed {Msg : Type} (fresh : Nat)
    (s : XcastState Msg) :
    ∀ t ∈ (XcastState.receive_once fresh s).allStates,
      t.closed = s.closed := by
  intro t ht
  unfold XcastState.receive_once at ht
  cases hp : s.ready_to_receive with
  | error e =>
    rw [hp] at ht; simp [OpResult.allStates] at ht; rw [ht]
  | ok b =>
    rw [hp] at ht
    cases b
    · simp [OpResult.allStates] at ht; rw [ht]
    · exact xcast_receive_drain_closed s t ht

theorem xcast_default_send_nowait_closed {Msg : Type} (s : XcastState Msg)
    (m : Msg) :
    ∀ t ∈ (s.default_send_nowait m).allStates, t.closed = s.closed := by
  intro t ht
  unfold XcastState.default_send_nowait at ht
  cases hp : s.default_ready_to_send with
  | error e =>
    rw [hp] at ht; simp [OpResult.allStates] at ht; rw [ht]
  | ok b =>
    rw [hp] at ht
    cases b
    · simp [OpResult.allStates] at ht; rw [ht]
    · simp [OpResult.allStates, XcastState.default_send_raw] at ht
      rw [ht]

theorem xcast_close_closed {Msg : Type} (s : XcastState Msg) :
    ∀ t ∈ s.close.allStates, t.closed = s.closed ∨ t.closed = true := by
  intro t ht
  simp only [XcastState.close] at ht
  cases hp : ({ s with senders := ([] : WaitGroup) } : XcastState Msg).ready_to_receive with
  | error e =>
    rw [hp] at ht
    simp [CloseResult.allStates] at ht
    rw [ht]; exact Or.inl rfl
  | ok b =>
    rw [hp] at ht
    cases b <;> simp [CloseResult.allStates] at ht <;> rw [ht] <;>
      exact Or.inr rfl

/-- C4: the close lifecycle, for every closable channel of the package
(`BufferedChannel` via `BufferedState`; `UnicastChannel`,
`BroadcastChannel` and `DefaultChannel` via `XcastState`, whose close path
is shared).  (1)-(2): `close()` on an open channel sets `closed`, aborts
every parked sender with `ChannelClosed`, and aborts the parked receivers
exactly when no message is deliverable (`_ready_to_receive` false) at
close time, leaving them parked otherwise.  (3): the abort marks every
not-completed waiter with the `ChannelClosed` error.  (4)-(5): once
`closed` holds, the send readiness probe raises `ChannelClosed`, so no
send (nowait or composite) ever succeeds.  (6)-(7): `closed` stays true
under every embedded operation. -/
theorem c4_close_lifecycle {Msg : Type} :
    (∀ s : BufferedState Msg, s.closed = false →
        s.close
          = .ok
              { s with
                  senders := [],
                  receivers :=
                    if s.ready_to_receive_raw then s.receivers else [],
                  closed := true }
              (abortDrained .channelClosed s.senders)
              (if s.ready_to_receive_raw then []
               else abortDrained .channelClosed s.receivers))
  ∧ (∀ s : XcastState Msg, s.closed = false →
        s.close
          = .ok
              { s with
                  senders := [],
                  receivers :=
                    if s.ready_to_receive_raw then s.receivers else [],
                  closed := true }
              (abortDrained .channelClosed s.senders)
              (if s.ready_to_receive_raw then []
               else abortDrained .channelClosed s.receivers))
  ∧ (∀ (g : WaitGroup) (w : Waiter), w ∈ g → w.done = false →
        ({ w with state := .aborted .channelClosed } : Waiter)
          ∈ abortDrained .channelClosed g)
  ∧ (∀ s : BufferedState Msg, s.closed = true →
        s.ready_to_send = .error .channelClosed
      ∧ (∀ m, s.send_nowait m = .exc .channelClosed s)
      ∧ (∀ fresh m, s.send_once fresh m = .exc .channelClosed s))
  ∧ (∀ s : XcastState Msg, s.closed = true →
        s.ready_to_send = .error .channelClosed
      ∧ s.default_ready_to_send = .error .channelClosed
      ∧ (∀ wakeAll m, XcastState.send_nowait wakeAll s m
            = .exc .channelClosed s)
      ∧ (∀ wakeAll fresh m, XcastState.send_once wakeAll fresh s m
            = .exc .channelClosed s)
      ∧ (∀ m, s.default_send_nowait m = .exc .channelClosed s))
  ∧ (∀ (s : BufferedState Msg) (m : Msg) (fresh : Nat), s.closed = true →
        (∀ t ∈ (s.send_nowait m).allStates, t.closed = true)
      ∧ (∀ t ∈ (s.send_once fresh m).allStates, t.closed = true)
      ∧ (∀ t ∈ s.receive_nowait.allStates, t.closed = true)
      ∧ (∀ t ∈ (s.receive_once fresh).allStates, t.closed = true)
      ∧ (∀ t ∈ (BufferedState.anext fresh s).allStates, t.closed = true)
      ∧ (∀ t ∈ s.close.allStates, t.closed = true))
  ∧ (∀ (s : XcastState Msg) (m : Msg) (fresh : Nat) (wakeAll : Bool),
        s.closed = true →
        (∀ t ∈ (XcastState.send_nowait wakeAll s m).allStates,
            t.closed = true)
      ∧ (∀ t ∈ (XcastState.send_once wakeAll fresh s m).allStates,
            t.closed = true)
      ∧ (∀ t ∈ s.receive_nowait.allStates, t.closed = true)
      ∧ (∀ t ∈ (XcastState.receive_once fresh s).allStates, t.closed = true)
      ∧ (∀ t ∈ (s.default_send_nowait m).allStates, t.closed = true)
      ∧ s.reset.closed = true
      ∧ (∀ t ∈ s.close.allStates, t.closed = true)) := by
  refine ⟨?_, ?_, ?_, ?_, ?_, ?_, ?_⟩
  · intro s h
    rcases hm : s.messages with _ | ⟨a, as⟩ <;>
      simp [BufferedState.close, BufferedState.ready_to_receive,
        wrapReadyReceive, BufferedState.ready_to_receive_raw,
        BufferedState.empty, h, hm]
  · intro s h
    rcases hm : s.message with _ | a <;>
      simp [XcastState.close, XcastState.ready_to_receive,
        wrapReadyReceive, XcastState.ready_to_receive_raw, h, hm]
  · intro g w hw hdone
    induction g with
    | nil => exact absurd hw (List.not_mem_nil w)
    | cons x xs ih =>
      rcases List.mem_cons.1 hw with h1 | h2
      · subst h1
        simp [abortDrained, hdone]
      · exact List.mem_cons_of_mem _ (ih h2)
  · intro s h
    refine ⟨?_, ?_, ?_⟩
    · simp [BufferedState.ready_to_send, wrapReadySend, h]
    · intro m
      simp [BufferedState.send_nowait, BufferedState.ready_to_send,
        wrapReadySend, h]
    · intro fresh m
      simp [BufferedState.send_once, BufferedState.ready_to_send,
        wrapReadySend, h]
  · intro s h
    refine ⟨?_, ?_, ?_, ?_, ?_⟩
    · simp [XcastState.ready_to_send, wrapReadySend, h]
    · simp [XcastState.default_ready_to_send, wrapReadySend, h]
    · intro wakeAll m
      simp [XcastState.send_nowait, XcastState.ready_to_send,
        wrapReadySend, h]
    · intro wakeAll fresh m
      simp [XcastState.send_once, XcastState.ready_to_send,
        wrapReadySend, h]
    · intro m
      simp [XcastState.default_send_nowait,
        XcastState.default_ready_to_send, wrapReadySend, h]
  · intro s m fresh h
    refine ⟨?_, ?_, ?_, ?_, ?_, ?_⟩
    · intro t ht
      exact (buffered_send_nowait_closed s m t ht).trans h
    · intro t ht
      exact (buffered_send_once_closed fresh s m t ht).trans h
    · intro t ht
      exact (buffered_receive_nowait_closed s t ht).trans h
    · intro t ht
      exact (buffered_receive_once_closed fresh s t ht).trans h
    · intro t ht
      exact (buffered_anext_closed fresh s t ht).trans h
    · intro t ht
      rcases buffered_close_closed s t ht with h1 | h1
      · exact h1.trans h
      · exact h1
  · intro s m fresh wakeAll h
    refine ⟨?_, ?_, ?_, ?_, ?_, ?_, ?_⟩
    · intro t ht
      exact (xcast_send_nowait_closed wakeAll s m t ht).trans h
    · intro t ht
      exact (xcast_send_once_closed wakeAll fresh s m t ht).trans h
    · intro t ht
      exact (xcast_receive_nowait_closed s t ht).trans h
    · intro t ht
      exact (xcast_receive_once_closed fresh s t ht).trans h
    · intro t ht
      exact (xcast_default_send_nowait_closed s m t ht).trans h
    · exact h
    · intro t ht
      rcases xcast_close_closed s t ht with h1 | h1
      · exact h1.trans h
      · exact h1

/-- Witness for C4: closing an open unbounded buffered channel that is
empty and has one parked sender and one parked receiver completes both
with the `ChannelClosed` error and leaves a closed channel with drained
wait-groups. -/
theorem c4_close_lifecycle_witness :
    BufferedState.close
        (⟨[], none, [⟨0, .pending⟩], [⟨1, .pending⟩], false⟩ :
          BufferedState Nat)
      = .ok ⟨[], none, [], [], true⟩
          [⟨0, .aborted .channelClosed⟩] [⟨1, .aborted .channelClosed⟩] := by
  have h := (@c4_close_lifecycle Nat).1
    ⟨[], none, [⟨0, .pending⟩], [⟨1, .pending⟩], false⟩ rfl
  simpa [abortDrained, Waiter.done] using h

theorem buffered_receive_raw_messages {Msg : Type} (s : BufferedState Msg)
    (m : Msg) (s1 : BufferedState Msg) (h : s.receive_raw = some (m, s1)) :
    s.messages = m :: s1.messages := by
  unfold BufferedState.receive_raw at h
  cases hm : s.messages with
  | nil => rw [hm] at h; cases h
  | cons a as =>
    rw [hm] at h
    simp only [Option.some.injEq, Prod.mk.injEq] at h
    have h2 : s1.messages = as := by rw [← h.2]
    rw [h.1, h2]

/-- One scheduling step of a single-producer single-consumer interleaving
on a buffered channel: either the producer task or the consumer task runs
next. -/
inductive Agent
  | prod
  | cons
deriving DecidableEq

/-- Runs an interleaving schedule of the composite `send` and `receive`
loops of an open `BufferedChannel` with the default FIFO storage
(channel.py lines 291-307): a producer step commits `_send` on the next
supplied message when `_ready_to_send` holds and otherwise stays parked
(the composite `send` loop retries the same message after waking); a
consumer step commits `_receive` when the channel is ready (equivalently,
when `receive_raw` yields a message) and otherwise stays parked.  Returns
the final channel state, the messages returned by the committed receives
in order, and the supplied messages not yet committed by `send`. -/
def runSched {Msg : Type} :
    List Agent → List Msg → BufferedState Msg →
      BufferedState Msg × List Msg × List Msg
  | [], inputs, s => (s, [], inputs)
  | .prod :: sch, [], s => runSched sch [] s
  | .prod :: sch, m :: rest, s =>
    if s.ready_to_send_raw then runSched sch rest (s.send_raw m)
    else runSched sch (m :: rest) s
  | .cons :: sch, inputs, s =>
    match s.receive_raw with
    | none => runSched sch inputs s
    | some (m, s1) =>
      let r := runSched sch inputs s1
      (r.1, m :: r.2.1, r.2.2)

theorem runSched_inv {Msg : Type} (sch : List Agent) (inputs : List Msg)
    (s : BufferedState Msg) :
    (runSched sch inputs s).2.1 ++ (runSched sch inputs s).1.messages
        ++ (runSched sch inputs s).2.2
      = s.messages ++ inputs := by
  induction sch generalizing inputs s with
  | nil => simp [runSched]
  | cons a sch ih =>
    cases a with
    | prod =>
      cases inputs with
      | nil => simpa [runSched] using ih [] s
      | cons m rest =>
        by_cases hr : s.ready_to_send_raw = true
        · have h1 := ih rest (s.send_raw m)
          simp only [runSched, hr, if_true]
          rw [h1]
          simp [BufferedState.send_raw]
        · simp only [Bool.not_eq_true] at hr
          simp only [runSched, hr, Bool.false_eq_true, if_false]
          exact ih (m :: rest) s
    | cons =>
      cases hm : s.receive_raw with
      | none => simpa [runSched, hm] using ih inputs s
      | some p =>
        obtain ⟨m, s1⟩ := p
        have hmsg := buffered_receive_raw_messages s m s1 hm
        have h1 := ih inputs s1
        simp only [runSched, hm]
        rw [hmsg]
        simp only [List.cons_append, List.append_assoc] at h1 ⊢
        rw [h1]

/-- C7: on a buffered channel with the default FIFO storage, for every
schedule interleaving a single producer committing the supplied messages
in order with a single consumer, the sequence of messages returned by
`receive` is a prefix of the sequence of messages supplied to `send` (the
not-yet-delivered suffix being the buffered plus not-yet-sent messages,
as when a close truncates delivery). -/
theorem c7_buffered_fifo_prefix {Msg : Type} (sch : List Agent)
    (inputs : List Msg) (maxsize : Option Nat) (snd rcv : WaitGroup) :
    ∃ rest,
      (runSched sch inputs
          (⟨[], maxsize, snd, rcv, false⟩ : BufferedState Msg)).2.1 ++ rest
        = inputs := by
  refine ⟨(runSched sch inputs
      (⟨[], maxsize, snd, rcv, false⟩ : BufferedState Msg)).1.messages
    ++ (runSched sch inputs
      (⟨[], maxsize, snd, rcv, false⟩ : BufferedState Msg)).2.2, ?_⟩
  have h := runSched_inv sch inputs
    (⟨[], maxsize, snd, rcv, false⟩ : BufferedState Msg)
  simpa [List.append_assoc] using h
